import Mathlib

/-!
Verification of the hybrid RAG pipeline in `hybrid_chat.py` (class `HybridRAG`).

The Python code is shallowly embedded: each external service (OpenAI embedding,
OpenAI chat, Pinecone, Neo4j, Redis) is an oracle supplied as a function, Python
exceptions become `Except` errors tagged by exception class, the Redis store is
an explicit key-value state threaded through the calls, and every external call
that the specification talks about is recorded in an effect trace.
-/

namespace HybridChat

/-- Python exception classes that `hybrid_chat.py` raises or catches:
`openai.APIError`, `redis.exceptions.RedisError`, `pinecone.PineconeException`,
`neo4j.exceptions.Neo4jError`. -/
inductive PyErr : Type where
  | api (msg : String)
  | redisErr (msg : String)
  | pineconeErr (msg : String)
  | neo4jErr (msg : String)
  deriving DecidableEq, Repr

/-- A chat message dict, e.g. `{"role": "user", "content": c}` (braces as in
Python source). -/
structure Msg where
  role : String
  content : String
  deriving DecidableEq, Repr

/-- The Redis store contents: later entries are shadowed by earlier ones.
TTL expiry is not modelled: every read in scope happens before the 24h TTL
elapses, matching the claims' "no TTL expiry between calls" assumption. -/
abbrev RedisState := List (String × String)

/-- Key lookup in the Redis store (`redis.get` on a reachable store). -/
def rlookup : RedisState → String → Option String
  | [], _ => none
  | (k, v) :: rest, key => if k = key then some v else rlookup rest key

/-- Key insert in the Redis store; the new binding shadows any older one,
matching `SETEX` overwrite semantics. -/
def rinsert (st : RedisState) (k v : String) : RedisState := (k, v) :: st

/-- Python truthiness of the value returned by `redis.get`:
`None` and empty bytes are falsy (`if cached_result:` in `embed_text`). -/
def truthy : Option String → Bool
  | none => false
  | some s => !s.isEmpty

/-- Oracle for the OpenAI embedding endpoint plus JSON (de)serialization.
`embed text` models `openai_client.embeddings.create(model=..., input=[text])`
followed by `resp.data[0].embedding`; `dumps`/`loads` model `json.dumps` and
`json.loads` on embedding vectors.  The element type `F` of embedding vectors
(Python float) is a parameter. -/
structure EmbedSvc (F : Type) where
  embed : String → Except PyErr (List F)
  dumps : List F → String
  loads : String → List F

/-- Redis availability: `configured = false` models `self.redis_client is None`
(the constructor disabled caching); `getFault`/`setFault` model the store being
unreachable on read resp. write, in which case the client raises `RedisError`. -/
structure RedisSvc where
  configured : Bool
  getFault : Bool
  setFault : Bool

/-- `self.redis_client.get(key)`: raises `RedisError` when unreachable. -/
def redisGet (R : RedisSvc) (st : RedisState) (k : String) :
    Except PyErr (Option String) :=
  if R.getFault then .error (.redisErr "redis unreachable") else .ok (rlookup st k)

/-- `self.redis_client.setex(key, ttlSeconds, value)`: raises `RedisError`
when unreachable; the TTL argument is carried but expiry is not modelled. -/
def redisSetex (R : RedisSvc) (st : RedisState) (k : String) (_ttlSeconds : Nat)
    (v : String) : Except PyErr RedisState :=
  if R.setFault then .error (.redisErr "redis unreachable") else .ok (rinsert st k v)

/-- `HybridRAG.embed_text` (hybrid_chat.py lines 73-105), statement by
statement.  With no Redis client the API is called with no handler, so an
`APIError` propagates.  Otherwise the `try` block reads the cache, returns a
deserialized hit, or calls the API, stores the result with a 24h TTL and
returns it; `except APIError` returns `[]`; `except redis.exceptions.RedisError`
re-calls the API outside any handler, so an `APIError` raised there propagates.
Returns the result (or uncaught exception) and the updated Redis store. -/
def embed_text {F : Type} (E : EmbedSvc F) (R : RedisSvc) (st : RedisState)
    (text : String) : Except PyErr (List F) × RedisState :=
  if !R.configured then
    (E.embed text, st)
  else
    let cache_key := "embedding:" ++ text
    match redisGet R st cache_key with
    | .error e =>
      match e with
      | .redisErr _ => (E.embed text, st)
      | _ => (.error e, st)
    | .ok cached =>
      if truthy cached then
        (.ok (E.loads (cached.getD "")), st)
      else
        match E.embed text with
        | .error e =>
          match e with
          | .api _ => (.ok [], st)
          | _ => (.error e, st)
        | .ok embedding =>
          match redisSetex R st cache_key 86400 (E.dumps embedding) with
          | .error e =>
            match e with
            | .redisErr _ => (E.embed text, st)
            | _ => (.error e, st)
          | .ok st2 => (.ok embedding, st2)

/-- The metadata dict of a Pinecone match; each field read by
`_get_search_summary` via `meta.get(..., 'N/A')` may be absent. -/
structure MatchMeta where
  mid : Option String
  mname : Option String
  mtype : Option String
  deriving DecidableEq, Repr

/-- A Pinecone match as consumed by the pipeline: `m["id"]` (always present in
Pinecone responses) and `m.get('metadata', ...)` which may be absent. -/
structure Match where
  id : String
  metadata : Option MatchMeta
  deriving DecidableEq, Repr

/-- Oracle for the Pinecone index.  `query vec top_k` models
`pinecone_index.query(vector=vec, top_k=top_k, include_metadata=True)` followed
by the `res["matches"]` projection, raising `PineconeException` on service
error. -/
structure PineconeSvc (F : Type) where
  query : List F → Nat → Except PyErr (List Match)

/-- External calls that the specification reasons about, recorded as a trace:
a Pinecone index query, a batched Neo4j graph query with its id-list parameter,
the summarization LLM call, and the final streaming generation call with the
composed prompt. -/
inductive Eff : Type where
  | pineconeQuery : Eff
  | graphQuery (ids : List String) : Eff
  | summaryLLM : Eff
  | genCall (prompt : List Msg) : Eff
  deriving DecidableEq, Repr

/-- `HybridRAG.pinecone_query` (lines 107-120).  The `try` block embeds the
query text, short-circuits to `[]` on a falsy (empty) vector without touching
the index, otherwise queries the index; only `PineconeException` is caught
(yielding `[]`), so any other exception — in particular one escaping
`embed_text` — propagates.  Returns result, Redis store, effect trace. -/
def pinecone_query {F : Type} (E : EmbedSvc F) (R : RedisSvc) (P : PineconeSvc F)
    (st : RedisState) (query_text : String) (top_k : Nat) :
    Except PyErr (List Match) × RedisState × List Eff :=
  match embed_text E R st query_text with
  | (.error e, st1) =>
    ((match e with
      | .pineconeErr _ => .ok []
      | _ => .error e), st1, [])
  | (.ok vec, st1) =>
    if vec.isEmpty then (.ok [], st1, [])
    else
      match P.query vec top_k with
      | .error e =>
        ((match e with
          | .pineconeErr _ => .ok []
          | _ => .error e), st1, [.pineconeQuery])
      | .ok ms => (.ok ms, st1, [.pineconeQuery])

/-- A node of the Neo4j graph carrying label `:Entity` (`id`, `name`,
`description` — possibly null — and its full label list). -/
structure Entity where
  id : String
  name : String
  description : Option String
  labels : List String
  deriving DecidableEq, Repr

/-- A relationship of the Neo4j graph (`src -[rtype]-> dst` by node id). -/
structure Rel where
  src : String
  rtype : String
  dst : String
  deriving DecidableEq, Repr

/-- The Neo4j graph contents. -/
structure Graph where
  entities : List Entity
  rels : List Rel
  deriving Repr

/-- One row returned by the Cypher query of `fetch_graph_context`
(`record.data()`). -/
structure GraphFact where
  source_id : String
  relation : String
  target_id : String
  target_name : String
  target_desc : String
  target_labels : List String
  deriving DecidableEq, Repr

/-- Cypher `left(s, n)`: the first `n` characters of `s`. -/
def strLeft (s : String) (n : Nat) : String := ⟨s.data.take n⟩

/-- `COALESCE(left(m.description, 300), "No description available.")`:
`left` of a null description is null, so the default applies exactly when the
description is absent. -/
def descOrDefault : Option String → String
  | none => "No description available."
  | some d => strLeft d 300

/-- `MATCH (n:Entity {id: nid})`: first entity with the given id. -/
def findEntity (g : Graph) (i : String) : Option Entity :=
  g.entities.find? (fun e => e.id == i)

/-- Builds one returned row for source node `nid`, relation type `rt` and
neighbour `m`, projecting exactly the RETURN clause of the Cypher query. -/
def mkFact (nid : String) (rt : String) (m : Entity) : GraphFact :=
  ⟨nid, rt, m.id, m.name, descOrDefault m.description, m.labels⟩

/-- Rows produced for a single unwound id: `MATCH (n:Entity {id: nid})-[r]-(m:Entity)`
matches relationships in both directions between existing entities. -/
def factsForId (g : Graph) (nid : String) : List GraphFact :=
  match findEntity g nid with
  | none => []
  | some _ =>
    (g.rels.filterMap (fun r =>
      if r.src == nid then (findEntity g r.dst).map (mkFact nid r.rtype)
      else none)) ++
    (g.rels.filterMap (fun r =>
      if r.dst == nid && !(r.src == nid) then (findEntity g r.src).map (mkFact nid r.rtype)
      else none))

/-- Semantics of the batched Cypher query of `fetch_graph_context` (lines
126-137): `UNWIND $node_ids AS nid` iterates the id list in order, each id
contributes its matched rows, and `LIMIT 20` keeps the first 20 rows overall. -/
def runCypher (g : Graph) (node_ids : List String) : List GraphFact :=
  ((node_ids.map (factsForId g)).flatten).take 20

/-- Oracle for the Neo4j driver: the graph contents, plus an injected
exception raised by `session.run` when `fault` is set. -/
structure Neo4jSvc where
  g : Graph
  fault : Option PyErr

/-- `HybridRAG.fetch_graph_context` (lines 122-146).  Empty `node_ids`
short-circuits with no session and no query; otherwise exactly one batched
query is issued, parameterized by the whole id list; `except Neo4jError`
returns `[]`, any other exception propagates. -/
def fetch_graph_context (N : Neo4jSvc) (node_ids : List String) :
    Except PyErr (List GraphFact) × List Eff :=
  if node_ids.isEmpty then (.ok [], [])
  else
    match N.fault with
    | some e =>
      ((match e with
        | .neo4jErr _ => .ok []
        | _ => .error e), [.graphQuery node_ids])
    | none => (.ok (runCypher N.g node_ids), [.graphQuery node_ids])

/-- Oracle for the OpenAI chat endpoint.  `complete msgs` models the
non-streaming `chat.completions.create(...)` call of `_get_search_summary`
followed by `response.choices[0].message.content`; `stream_create msgs` models
the streaming call of `get_answer`, returning the chunk contents
(`chunk.choices[0].delta.content`, possibly `None`) in emission order, or the
exception raised at stream initiation. -/
structure ChatSvc where
  complete : List Msg → Except PyErr String
  stream_create : List Msg → Except PyErr (List (Option String))

/-- The sentinel returned by `_get_search_summary` when there is no context. -/
def noInfoSentinel : String := "No relevant information was found in the knowledge base."

/-- The sentinel returned by `_get_search_summary` on an `APIError`. -/
def summaryErrSentinel : String := "Error: Could not generate a summary of the search results."

/-- `meta.get(k, 'N/A')`. -/
def metaGet (o : Option String) : String := o.getD "N/A"

/-- One line of the Pinecone section of the summary context (line 157). -/
def renderMatch (m : Match) : String :=
  let meta := m.metadata.getD ⟨none, none, none⟩
  "- ID: " ++ metaGet meta.mid ++ ", Name: " ++ metaGet meta.mname ++
    ", Type: " ++ metaGet meta.mtype ++ "\n"

/-- One line of the Neo4j section of the summary context (line 161). -/
def renderFact (f : GraphFact) : String :=
  "- The entity `" ++ f.source_id ++ "` has a `" ++ f.relation ++
    "` relation with `" ++ f.target_name ++ "` (`" ++ f.target_id ++ "`).\n"

/-- The `summary_context` block assembled by `_get_search_summary`
(lines 154-161). -/
def summaryContext (pinecone_matches : List Match) (graph_facts : List GraphFact) : String :=
  "### Pinecone Semantic Search Results:\n" ++
    String.join (pinecone_matches.map renderMatch) ++
    "\n### Neo4j Graph Facts:\n" ++
    String.join (graph_facts.map renderFact)

/-- The two messages sent to the summarization model (lines 166-169). -/
def summarizerMessages (query : String) (ctx : String) : List Msg :=
  [⟨"system", "You are a highly skilled summarization assistant. Your task is to synthesize the provided search results into a concise, single paragraph. Focus only on the information that is most relevant to answering the user's query."⟩,
   ⟨"user", "Please summarize the following information in the context of this user query: '" ++ query ++ "'\n\n### Search Results:\n" ++ ctx⟩]

/-- `HybridRAG._get_search_summary` (lines 148-177).  Both inputs empty returns
the fixed sentinel with no LLM call; otherwise one summarization call is made;
`except APIError` returns the error sentinel, other exceptions propagate. -/
def get_search_summary (C : ChatSvc) (query : String) (pinecone_matches : List Match)
    (graph_facts : List GraphFact) : Except PyErr String × List Eff :=
  if pinecone_matches.isEmpty && graph_facts.isEmpty then
    (.ok noInfoSentinel, [])
  else
    match C.complete (summarizerMessages query (summaryContext pinecone_matches graph_facts)) with
    | .ok summary => (.ok summary, [.summaryLLM])
    | .error e =>
      ((match e with
        | .api _ => .ok summaryErrSentinel
        | _ => .error e), [.summaryLLM])

/-- The fixed system persona of `build_prompt_with_summary` (lines 181-206),
verbatim. -/
def systemContent : String :=
  "You are 'VietBot', a meticulous and expert AI travel planner for Vietnam. Your task is to follow a strict reasoning process to provide the most accurate and helpful answer possible, based **exclusively** on the provided context.\n\n### Step 1: Internal Thought Process\n\nFirst, you must reason through the user's request by completing the following steps inside `<thinking>` tags. This is your private workspace.\n\n<thinking>\n**1. User's Goal:** [Identify the user's primary intent in one clear sentence.]\n**2. Key Information & Constraints:** [Extract all key entities, locations, durations, preferences (e.g., 'romantic'), or other constraints from the user's query.]\n**3. Context Analysis:** [Analyze the provided 'CONTEXT SUMMARY'. List the specific pieces of information that directly address the user's goal and constraints.]\n**4. Sufficiency Check:** [Based on the analysis, explicitly state whether the context is sufficient to fully answer the query. If not, identify exactly what information is missing.]\n**5. Plan:** [Based on the available information, outline a clear, step-by-step plan for constructing the final answer.]\n</thinking>\n\n### Step 2: Final Answer to the User\n\nAfter your thought process, provide the final answer to the user inside `<answer>` tags.\n\n### Rules for the Final Answer:\n-   The answer must be based **only** on your 'Plan' from the `<thinking>` block.\n-   If the context was insufficient, state clearly what you can answer and what information you couldn't find. **Do not make up information.**\n-   Do not mention your thought process or the context summary in the final answer. Speak directly to the user.\n-   Format the answer for clarity using Markdown (lists, bold text).\n-   Cite sources by including the node ID in parentheses, like `Hoi An (town_hoi_an)`.\n-   Maintain a friendly, expert tone.\n"

/-- The content of the final user turn (lines 208-209): the rendered context
block containing the summary, then the literal query. -/
def userContent (user_query : String) (summary : String) : String :=
  "## CONTEXT SUMMARY\n\n" ++ summary ++ "\n\n## QUERY\n\n" ++ user_query

/-- `HybridRAG.build_prompt_with_summary` (lines 179-217): a fresh list holding
the system turn, then (`if history:`) the supplied history, then the final
user turn; the history list itself is only read. -/
def build_prompt_with_summary (user_query : String) (summary : String)
    (history : List Msg) : List Msg :=
  let full_prompt := [Msg.mk "system" systemContent]
  let full_prompt := if history.isEmpty then full_prompt else full_prompt ++ history
  full_prompt ++ [Msg.mk "user" (userContent user_query summary)]

/-- `history = history or []` (line 223): `None` and the empty list both give
`[]`. -/
def historyOr : Option (List Msg) → List Msg
  | none => []
  | some h => if h.isEmpty then [] else h

/-- Everything `get_answer` depends on: the five external services. -/
structure Env (F : Type) where
  E : EmbedSvc F
  R : RedisSvc
  P : PineconeSvc F
  N : Neo4jSvc
  C : ChatSvc

/-- Equality of `Except` values is decidable when it is on both sides. -/
instance {ε α : Type} [DecidableEq ε] [DecidableEq α] : DecidableEq (Except ε α)
  | .ok a, .ok b =>
    if h : a = b then .isTrue (congrArg Except.ok h)
    else .isFalse (fun hc => h (Except.ok.inj hc))
  | .ok _, .error _ => .isFalse (fun hc => Except.noConfusion hc)
  | .error _, .ok _ => .isFalse (fun hc => Except.noConfusion hc)
  | .error a, .error b =>
    if h : a = b then .isTrue (congrArg Except.error h)
    else .isFalse (fun hc => h (Except.error.inj hc))

/-- The observable outcome of one `get_answer` run: the yielded fragments (or
the uncaught exception that terminates the generator), the final Redis store,
and the trace of external calls. -/
structure RunResult where
  result : Except PyErr (List String)
  state : RedisState
  effs : List Eff
  deriving DecidableEq, Repr

/-- STEP 5 of `get_answer` (lines 256-263): initiate the stream — an
initiation failure propagates — then yield `chunk.choices[0].delta.content or ""`
for each chunk. -/
def streamRun (C : ChatSvc) (prompt : List Msg) : Except PyErr (List String) :=
  match C.stream_create prompt with
  | .error e => .error e
  | .ok chunks => .ok (chunks.map (fun c => c.getD ""))

/-- `HybridRAG.get_answer` (lines 219-263): normalize the history, retrieve
from Pinecone, collect `[m["id"] for m in matches]`, expand via Neo4j,
summarize, compose the prompt, then stream the generation.  No stage is
wrapped in a handler here, so an exception escaping any stage terminates the
generator. -/
def get_answer {F : Type} (env : Env F) (st : RedisState) (query : String)
    (history : Option (List Msg)) : RunResult :=
  let hist := historyOr history
  match pinecone_query env.E env.R env.P st query 5 with
  | (.error e, st1, effs1) => ⟨.error e, st1, effs1⟩
  | (.ok pmatches, st1, effs1) =>
    let match_ids := pmatches.map Match.id
    match fetch_graph_context env.N match_ids with
    | (.error e, effs2) => ⟨.error e, st1, effs1 ++ effs2⟩
    | (.ok graph_facts, effs2) =>
      match get_search_summary env.C query pmatches graph_facts with
      | (.error e, effs3) => ⟨.error e, st1, effs1 ++ effs2 ++ effs3⟩
      | (.ok summary, effs3) =>
        let prompt_messages := build_prompt_with_summary query summary hist
        ⟨streamRun env.C prompt_messages, st1,
          effs1 ++ effs2 ++ effs3 ++ [.genCall prompt_messages]⟩

/-! Concrete service instances used to witness the theorems below. -/

/-- An embedding service that always raises `APIError`. -/
def embedFailSvc : EmbedSvc Nat :=
  ⟨fun _ => .error (.api "service down"), fun _ => "[]", fun _ => []⟩

/-- An embedding service that always returns the vector `[7, 8]`, with a
serialization pair that round-trips it. -/
def embedOkSvc : EmbedSvc Nat :=
  ⟨fun _ => .ok [7, 8],
   fun l => if l = [7, 8] then "enc78" else "other",
   fun s => if s = "enc78" then [7, 8] else []⟩

/-- Redis configured and fully reachable. -/
def redisOk : RedisSvc := ⟨true, false, false⟩

/-- No Redis client (`self.redis_client = None`). -/
def redisNone : RedisSvc := ⟨false, false, false⟩

/-- Redis configured but unreachable on read. -/
def redisReadDown : RedisSvc := ⟨true, true, false⟩

/-- Redis configured but unreachable on write. -/
def redisWriteDown : RedisSvc := ⟨true, false, true⟩

/-- A Pinecone index with no matches. -/
def pineOk : PineconeSvc Nat := ⟨fun _ _ => .ok []⟩

/-- An empty Neo4j graph, reachable. -/
def neoEmpty : Neo4jSvc := ⟨⟨[], []⟩, none⟩

/-- A two-node demo graph: `a -NEAR- b`, where `b` has no description. -/
def gDemo : Graph :=
  ⟨[⟨"a", "A", some "descA", ["Entity"]⟩, ⟨"b", "B", none, ["Entity"]⟩],
   [⟨"a", "NEAR", "b"⟩]⟩

/-- The demo graph behind a reachable driver. -/
def neoDemo : Neo4jSvc := ⟨gDemo, none⟩

/-- A chat service whose streaming call emits three chunks. -/
def chatOk : ChatSvc :=
  ⟨fun _ => .ok "a summary", fun _ => .ok [some "Hello", none, some "!"]⟩

/-- A chat service whose streaming call fails at initiation. -/
def chatStreamFail : ChatSvc :=
  ⟨fun _ => .ok "a summary", fun _ => .error (.api "stream init failed")⟩

/-- Full environment: embedding down, everything else up. -/
def envEmbedFail : Env Nat := ⟨embedFailSvc, redisOk, pineOk, neoEmpty, chatOk⟩

/-- Full environment: embedding down and stream initiation failing. -/
def envStreamFail : Env Nat := ⟨embedFailSvc, redisOk, pineOk, neoEmpty, chatStreamFail⟩

/-! Claim theorems. -/

/-- Claim C7: for every query and chat oracle, `_get_search_summary` called
with empty matches and empty facts returns the fixed no-information sentinel
and performs no generation-service call (empty effect trace). -/
theorem summarize_empty_returns_sentinel (C : ChatSvc) (q : String) :
    get_search_summary C q [] [] = (.ok noInfoSentinel, []) := rfl

/-- Claim C8: `build_prompt_with_summary` returns the system turn, then the
supplied history verbatim and in order, then a final user turn; its length is
`history.length + 2`, element 0 is the system turn, the last element is the
user turn, and that turn's content contains the summary and the query
verbatim.  The history list is only read (the output is a fresh list with the
history embedded unchanged). -/
theorem compose_structure (q s : String) (history : List Msg) :
    build_prompt_with_summary q s history =
      Msg.mk "system" systemContent ::
        (history ++ [Msg.mk "user" (userContent q s)]) ∧
    (build_prompt_with_summary q s history).length = history.length + 2 ∧
    (build_prompt_with_summary q s history).head? =
      some (Msg.mk "system" systemContent) ∧
    (build_prompt_with_summary q s history).getLast? =
      some (Msg.mk "user" (userContent q s)) ∧
    ∃ a b, userContent q s = a ++ s ++ b ++ q := by
  have hb : build_prompt_with_summary q s history =
      Msg.mk "system" systemContent ::
        (history ++ [Msg.mk "user" (userContent q s)]) := by
    unfold build_prompt_with_summary
    cases history with
    | nil => simp
    | cons h t => simp
  refine ⟨hb, ?_, ?_, ?_, ⟨"## CONTEXT SUMMARY\n\n", "\n\n## QUERY\n\n", rfl⟩⟩
  · rw [hb]; simp
  · rw [hb]; rfl
  · rw [hb, ← List.cons_append, List.getLast?_concat]

/-- Claim C2 (cache transparency): with the cache configured and reachable and
no entry for `t`, a successful `embed_text t` stores the serialized vector and
returns it, and a second `embed_text t` against the resulting store takes the
cache-hit path — deserializing the stored value — and returns the identical
vector.  The hypotheses `hne`/`hrt` record that `json.dumps` of a vector is
non-empty and that `json.loads` inverts it, which hold of Python's JSON
round-trip on float lists. -/
theorem embed_cache_transparent {F : Type} (E : EmbedSvc F) (R : RedisSvc)
    (st : RedisState) (t : String) (v : List F)
    (hconf : R.configured = true) (hget : R.getFault = false)
    (hset : R.setFault = false)
    (hmiss : truthy (rlookup st ("embedding:" ++ t)) = false)
    (hembed : E.embed t = .ok v)
    (hne : (E.dumps v).isEmpty = false)
    (hrt : E.loads (E.dumps v) = v) :
    embed_text E R st t =
      (.ok v, rinsert st ("embedding:" ++ t) (E.dumps v)) ∧
    embed_text E R (rinsert st ("embedding:" ++ t) (E.dumps v)) t =
      (.ok v, rinsert st ("embedding:" ++ t) (E.dumps v)) := by
  constructor
  · simp [embed_text, hconf, redisGet, hget, hmiss, hembed, redisSetex, hset,
      rinsert]
  · simp [embed_text, hconf, redisGet, hget, rinsert, rlookup, truthy, hne, hrt]

/-- Witness for C2 at a concrete store and vector. -/
theorem embed_cache_transparent_witness :
    embed_text embedOkSvc redisOk
        (rinsert [] ("embedding:" ++ "t") (embedOkSvc.dumps [7, 8])) "t" =
      (.ok [7, 8], rinsert [] ("embedding:" ++ "t") (embedOkSvc.dumps [7, 8])) :=
  (embed_cache_transparent embedOkSvc redisOk [] "t" [7, 8] rfl rfl rfl
    (by decide) rfl (by decide) (by decide)).2

/-- Claim C3 is false as stated: with no cache backend configured
(`redis_client is None`), `embed_text` invokes the embedding service outside
any handler, so an `APIError` propagates instead of yielding `[]`. -/
theorem embed_nocache_raises :
    (embed_text embedFailSvc redisNone [] "q").1 = .error (.api "service down") ∧
    (embed_text embedFailSvc redisNone [] "q").1 ≠ .ok [] := by decide

/-- Claim C3 as amended: when a cache backend is configured and the cache read
succeeds (a normal miss), an `APIError` from the embedding service makes
`embed_text` return the empty vector with the store unchanged, and no
exception escapes; on the no-cache path and the cache-error fallback path the
service error instead propagates. -/
theorem embed_api_error_fail_open {F : Type} (E : EmbedSvc F) (R : RedisSvc)
    (st : RedisState) (t m : String)
    (hconf : R.configured = true) (hget : R.getFault = false)
    (hmiss : truthy (rlookup st ("embedding:" ++ t)) = false)
    (hembed : E.embed t = .error (.api m)) :
    embed_text E R st t = (.ok [], st) := by
  simp [embed_text, hconf, redisGet, hget, hmiss, hembed]

/-- Witness for the amended C3. -/
theorem embed_api_error_fail_open_witness :
    embed_text embedFailSvc redisOk [] "t" = (.ok [], []) :=
  embed_api_error_fail_open embedFailSvc redisOk [] "t" "service down" rfl rfl
    (by decide) rfl

/-- Claim C4: if the cache store is unreachable on read, or unreachable on
write after a miss, while the embedding service succeeds, `embed_text` returns
the vector obtained by direct embedding-service invocation, leaves the store
unchanged (stores nothing), and no exception escapes. -/
theorem embed_cache_down_fallback {F : Type} (E : EmbedSvc F) (R : RedisSvc)
    (st : RedisState) (t : String) (v : List F)
    (hconf : R.configured = true)
    (hembed : E.embed t = .ok v)
    (hfault : R.getFault = true ∨
      (R.getFault = false ∧ R.setFault = true ∧
        truthy (rlookup st ("embedding:" ++ t)) = false)) :
    embed_text E R st t = (.ok v, st) := by
  rcases hfault with hg | ⟨hg, hs, hmiss⟩
  · simp [embed_text, hconf, redisGet, hg, hembed]
  · simp [embed_text, hconf, redisGet, hg, hmiss, hembed, redisSetex, hs]

/-- Witness for C4 (read fault; the write-fault case is the other disjunct). -/
theorem embed_cache_down_fallback_witness :
    embed_text embedOkSvc redisReadDown [] "t" = (.ok [7, 8], []) :=
  embed_cache_down_fallback embedOkSvc redisReadDown [] "t" [7, 8] rfl rfl
    (.inl rfl)

/-- Claim C5 is false as stated: `pinecone_query` catches only
`PineconeException`, so an `APIError` escaping `embed_text` (here: no cache
configured, embedding service down) propagates to the caller instead of
yielding an empty match list. -/
theorem search_embed_exception_propagates :
    (pinecone_query embedFailSvc redisNone pineOk [] "q" 5).1 =
      .error (.api "service down") ∧
    (pinecone_query embedFailSvc redisNone pineOk [] "q" 5).1 ≠ .ok [] := by
  decide

/-- Claim C5 as amended: provided the embedding stage does not itself raise,
`pinecone_query` fails open — an empty query vector short-circuits to `[]`
with no index call, and a `PineconeException` from the index query also yields
`[]`; embedding-service exceptions escaping `embed_text` are not covered and
propagate. -/
theorem search_fail_open {F : Type} (E : EmbedSvc F) (R : RedisSvc)
    (P : PineconeSvc F) (st st' : RedisState) (q m : String) (top_k : Nat)
    (vec : List F)
    (h1 : embed_text E R st q = (.ok vec, st'))
    (h2 : vec = [] ∨ P.query vec top_k = .error (.pineconeErr m)) :
    pinecone_query E R P st q top_k =
      (.ok [], st', if vec.isEmpty then [] else [Eff.pineconeQuery]) := by
  rcases h2 with h2 | h2
  · subst h2; simp [pinecone_query, h1]
  · by_cases hv : vec.isEmpty
    · simp [pinecone_query, h1, hv]
    · simp [pinecone_query, h1, hv, h2]

/-- Witness for the amended C5 (embedding yields the empty vector). -/
theorem search_fail_open_witness :
    pinecone_query embedFailSvc redisOk pineOk [] "t" 5 = (.ok [], [], []) := by
  have h := search_fail_open embedFailSvc redisOk pineOk [] [] "t" "m" 5 []
    (by decide) (.inl rfl)
  simpa using h

/-- The first `n` characters of a string are at most `n` characters. -/
theorem strLeft_len (s : String) (n : Nat) : (strLeft s n).length ≤ n := by
  have h : (strLeft s n).length = (s.data.take n).length := rfl
  rw [h, List.length_take]
  exact min_le_left _ _

/-- Every row produced for one unwound id targets an entity of the graph and
carries that entity's coalesced, truncated description. -/
theorem mem_factsForId {g : Graph} {nid : String} {f : GraphFact}
    (hf : f ∈ factsForId g nid) :
    ∃ m ∈ g.entities, f.target_id = m.id ∧
      f.target_desc = descOrDefault m.description := by
  unfold factsForId at hf
  cases hfind : findEntity g nid with
  | none => rw [hfind] at hf; simp at hf
  | some n =>
    rw [hfind] at hf
    rcases List.mem_append.1 hf with h | h <;>
    · rcases List.mem_filterMap.1 h with ⟨r, _hr, hmap⟩
      split at hmap
      · rcases Option.map_eq_some'.1 hmap with ⟨m, hm, hmk⟩
        exact ⟨m, List.mem_of_find?_eq_some hm, by rw [← hmk]; rfl,
          by rw [← hmk]; rfl⟩
      · exact absurd hmap (by simp)

/-- Claim C6: for every non-empty id list over a reachable graph store,
`fetch_graph_context` issues exactly one batched graph query carrying the full
id list, the returned fact list has at most 20 facts across all ids combined,
every fact's target description is the source entity's description coalesced
with the fixed default — so the default string appears exactly when the
description is absent — and a present description is truncated to at most 300
characters. -/
theorem graph_expand_batched (N : Neo4jSvc) (node_ids : List String)
    (hne : node_ids.isEmpty = false) (hok : N.fault = none) :
    (fetch_graph_context N node_ids).2 = [Eff.graphQuery node_ids] ∧
    (fetch_graph_context N node_ids).1 = .ok (runCypher N.g node_ids) ∧
    (runCypher N.g node_ids).length ≤ 20 ∧
    (∀ f ∈ runCypher N.g node_ids,
      ∃ m ∈ N.g.entities, f.target_id = m.id ∧
        f.target_desc = descOrDefault m.description) ∧
    (∀ d : String, (descOrDefault (some d)).length ≤ 300) ∧
    descOrDefault none = "No description available." := by
  refine ⟨?_, ?_, ?_, ?_, fun d => strLeft_len d 300, rfl⟩
  · simp [fetch_graph_context, hne, hok]
  · simp [fetch_graph_context, hne, hok]
  · have h : (runCypher N.g node_ids).length =
        (((node_ids.map (factsForId N.g)).flatten).take 20).length := rfl
    rw [h, List.length_take]
    exact min_le_left _ _
  · intro f hf
    have hf2 : f ∈ (node_ids.map (factsForId N.g)).flatten :=
      List.mem_of_mem_take hf
    rcases List.mem_flatten.1 hf2 with ⟨l, hl, hfl⟩
    rcases List.mem_map.1 hl with ⟨nid, _, hll⟩
    exact mem_factsForId (hll ▸ hfl)

/-- Witness for C6 on the demo graph. -/
theorem graph_expand_batched_witness :
    (fetch_graph_context neoDemo ["a"]).2 = [Eff.graphQuery ["a"]] ∧
    (runCypher gDemo ["a"]).length ≤ 20 :=
  ⟨(graph_expand_batched neoDemo ["a"] (by decide) rfl).1,
   (graph_expand_batched neoDemo ["a"] (by decide) rfl).2.2.1⟩

/-- Claim C1: whenever the embedding stage returns the empty vector, the
pipeline does not abort — the search stage returns the empty match list
without querying the vector store, no graph query is ever issued, no
summarization LLM call is made (the summary is the no-information sentinel),
the prompt is still composed from the sentinel context and the query, and the
final generation call is still attempted, the run's outcome being exactly the
outcome of that generation call. -/
theorem pipeline_empty_embedding {F : Type} (env : Env F) (st st' : RedisState)
    (q : String) (history : Option (List Msg))
    (h : embed_text env.E env.R st q = (.ok [], st')) :
    pinecone_query env.E env.R env.P st q 5 = (.ok [], st', []) ∧
    get_answer env st q history =
      ⟨streamRun env.C
          (build_prompt_with_summary q noInfoSentinel (historyOr history)), st',
        [.genCall (build_prompt_with_summary q noInfoSentinel (historyOr history))]⟩ ∧
    Eff.pineconeQuery ∉ (get_answer env st q history).effs ∧
    (∀ ids, Eff.graphQuery ids ∉ (get_answer env st q history).effs) ∧
    Eff.summaryLLM ∉ (get_answer env st q history).effs ∧
    Eff.genCall (build_prompt_with_summary q noInfoSentinel (historyOr history)) ∈
      (get_answer env st q history).effs := by
  have hpq : pinecone_query env.E env.R env.P st q 5 = (.ok [], st', []) := by
    simp [pinecone_query, h]
  have hga : get_answer env st q history =
      ⟨streamRun env.C
          (build_prompt_with_summary q noInfoSentinel (historyOr history)), st',
        [.genCall (build_prompt_with_summary q noInfoSentinel (historyOr history))]⟩ := by
    simp [get_answer, hpq, fetch_graph_context, get_search_summary]
  refine ⟨hpq, hga, ?_, ?_, ?_, ?_⟩ <;> rw [hga] <;> simp

/-- Witness for C1: embedding service down, cache reachable — no vector-store
query, no graph query, no summarization call, generation still attempted. -/
theorem pipeline_empty_embedding_witness :
    Eff.pineconeQuery ∉ (get_answer envEmbedFail [] "Where can I visit?" none).effs ∧
    Eff.summaryLLM ∉ (get_answer envEmbedFail [] "Where can I visit?" none).effs := by
  have h : embed_text envEmbedFail.E envEmbedFail.R [] "Where can I visit?" =
      (.ok [], []) := rfl
  exact ⟨(pipeline_empty_embedding envEmbedFail [] [] "Where can I visit?" none h).2.2.1,
    (pipeline_empty_embedding envEmbedFail [] [] "Where can I visit?" none h).2.2.2.2.1⟩

/-- Claim C9 is false as stated: `get_answer` wraps the stream-initiation call
in no handler, so an initiation failure propagates as an exception across the
pipeline boundary; no apology fragment (indeed no fragment list at all) is
produced. -/
theorem stream_failure_raises :
    (get_answer envStreamFail [] "q" none).result =
      .error (.api "stream init failed") ∧
    ¬ ∃ frags, (get_answer envStreamFail [] "q" none).result = .ok frags := by
  constructor
  · rfl
  · rintro ⟨frags, hf⟩
    rw [show (get_answer envStreamFail [] "q" none).result =
        .error (.api "stream init failed") from rfl] at hf
    exact Except.noConfusion hf

/-- Claim C9 as amended: if initiation of the streaming generation call fails,
`get_answer` terminates with an uncaught exception — some error reaches the
caller and no fragment list is produced — rather than yielding an in-band
apology fragment. -/
theorem stream_failure_propagates {F : Type} (env : Env F) (st : RedisState)
    (q : String) (history : Option (List Msg)) (e : PyErr)
    (h : ∀ p, env.C.stream_create p = .error e) :
    ∃ e', (get_answer env st q history).result = .error e' := by
  unfold get_answer
  rcases hpq : pinecone_query env.E env.R env.P st q 5 with ⟨r1, st1, effs1⟩
  cases r1 with
  | error e1 => exact ⟨e1, rfl⟩
  | ok pms =>
    rcases hfg : fetch_graph_context env.N (pms.map Match.id) with ⟨r2, effs2⟩
    dsimp only
    rw [hfg]
    cases r2 with
    | error e2 => exact ⟨e2, rfl⟩
    | ok gfs =>
      dsimp only
      rcases hss : get_search_summary env.C q pms gfs with ⟨r3, effs3⟩
      cases r3 with
      | error e3 => exact ⟨e3, rfl⟩
      | ok s => exact ⟨e, by simp [streamRun, h]⟩

/-- Witness for the amended C9. -/
theorem stream_failure_propagates_witness :
    ∃ e', (get_answer envStreamFail [] "w" none).result = .error e' :=
  stream_failure_propagates envStreamFail [] "w" none (.api "stream init failed")
    (fun _ => rfl)

/-- The search stage records either no external call or exactly one index
query. -/
theorem pinecone_query_effs_cases {F : Type} (E : EmbedSvc F) (R : RedisSvc)
    (P : PineconeSvc F) (st : RedisState) (q : String) (k : Nat) :
    (pinecone_query E R P st q k).2.2 = [] ∨
    (pinecone_query E R P st q k).2.2 = [Eff.pineconeQuery] := by
  unfold pinecone_query
  rcases embed_text E R st q with ⟨r, st1⟩
  cases r with
  | error e => exact .inl rfl
  | ok vec =>
    by_cases hv : vec.isEmpty <;> simp only [hv]
    · exact .inl rfl
    · simp only [Bool.false_eq_true, if_false]
      cases P.query vec k with
      | error e => exact .inr rfl
      | ok ms => exact .inr rfl

/-- The graph stage records either no external call or exactly one batched
query. -/
theorem fetch_graph_context_effs (N : Neo4jSvc) (ids : List String) :
    (fetch_graph_context N ids).2 = [] ∨
    (fetch_graph_context N ids).2 = [Eff.graphQuery ids] := by
  unfold fetch_graph_context
  by_cases hv : ids.isEmpty <;> simp only [hv]
  · exact .inl rfl
  · simp only [Bool.false_eq_true, if_false]
    cases N.fault with
    | some e => exact .inr rfl
    | none => exact .inr rfl

/-- The summarization stage records either no LLM call or exactly one. -/
theorem get_search_summary_effs (C : ChatSvc) (q : String) (pms : List Match)
    (gfs : List GraphFact) :
    (get_search_summary C q pms gfs).2 = [] ∨
    (get_search_summary C q pms gfs).2 = [Eff.summaryLLM] := by
  unfold get_search_summary
  by_cases hv : pms.isEmpty && gfs.isEmpty <;> simp only [hv]
  · exact .inl rfl
  · simp only [Bool.false_eq_true, if_false]
    cases C.complete (summarizerMessages q (summaryContext pms gfs)) with
    | error e => exact .inr rfl
    | ok s => exact .inr rfl

/-- Any generation call recorded by a `get_answer` run carries the prompt
composed from the query, some summary, and the normalized history. -/
theorem get_answer_genCall {F : Type} (env : Env F) (st : RedisState)
    (q : String) (history : Option (List Msg)) (p : List Msg)
    (hp : Eff.genCall p ∈ (get_answer env st q history).effs) :
    ∃ s, p = build_prompt_with_summary q s (historyOr history) := by
  unfold get_answer at hp
  rcases hpq : pinecone_query env.E env.R env.P st q 5 with ⟨r1, st1, effs1⟩
  rw [hpq] at hp
  have heffs1 := pinecone_query_effs_cases env.E env.R env.P st q 5
  rw [hpq] at heffs1
  simp only at heffs1
  cases r1 with
  | error e1 =>
    simp only at hp
    rcases heffs1 with h1 | h1 <;> rw [h1] at hp <;> simp at hp
  | ok pms =>
    dsimp only at hp
    rcases hfg : fetch_graph_context env.N (pms.map Match.id) with ⟨r2, effs2⟩
    rw [hfg] at hp
    have heffs2 := fetch_graph_context_effs env.N (pms.map Match.id)
    rw [hfg] at heffs2
    simp only at heffs2
    cases r2 with
    | error e2 =>
      simp only at hp
      rcases heffs1 with h1 | h1 <;> rcases heffs2 with h2 | h2 <;>
        rw [h1, h2] at hp <;> simp at hp
    | ok gfs =>
      dsimp only at hp
      rcases hss : get_search_summary env.C q pms gfs with ⟨r3, effs3⟩
      rw [hss] at hp
      have heffs3 := get_search_summary_effs env.C q pms gfs
      rw [hss] at heffs3
      simp only at heffs3
      cases r3 with
      | error e3 =>
        simp only at hp
        rcases heffs1 with h1 | h1 <;> rcases heffs2 with h2 | h2 <;>
          rcases heffs3 with h3 | h3 <;> rw [h1, h2, h3] at hp <;> simp at hp
      | ok s =>
        refine ⟨s, ?_⟩
        simp only at hp
        rcases heffs1 with h1 | h1 <;> rcases heffs2 with h2 | h2 <;>
          rcases heffs3 with h3 | h3 <;> rw [h1, h2, h3] at hp <;>
          simpa using hp

/-- Claim C10: `get_answer` with `history` omitted (`None`) behaves exactly as
with an empty history — the runs are equal — and any prompt it sends to the
generation service consists of exactly 2 messages: the system turn followed by
the final user turn built from the summary and the query. -/
theorem default_history_empty {F : Type} (env : Env F) (st : RedisState)
    (q : String) :
    get_answer env st q none = get_answer env st q (some []) ∧
    ∀ p, Eff.genCall p ∈ (get_answer env st q none).effs →
      ∃ s, p = [Msg.mk "system" systemContent,
                Msg.mk "user" (userContent q s)] := by
  refine ⟨rfl, fun p hp => ?_⟩
  obtain ⟨s, hs⟩ := get_answer_genCall env st q none p hp
  exact ⟨s, by rw [hs]; rfl⟩

/-- Witness for C10: a run that reaches generation does so with the 2-message
prompt. -/
theorem default_history_empty_witness :
    ∃ s, [Msg.mk "system" systemContent,
          Msg.mk "user" (userContent "Hanoi?" noInfoSentinel)] =
      [Msg.mk "system" systemContent, Msg.mk "user" (userContent "Hanoi?" s)] := by
  refine (default_history_empty envEmbedFail [] "Hanoi?").2 _ ?_
  exact List.Mem.head _

end HybridChat
